import Mathlib

/-!
Shallow embedding of the Multi-Agent Business Insights orchestrator
(`orchestrator.py`, mirrored by `streamlit_app.py`).

Numeric columns of the CSV are modelled as exact rationals; pandas
half-to-even rounding (`round(x, 2)`, `DataFrame.round(2)`) is modelled by
`roundHalfEven`.  The non-finite float (nan or inf) that numpy produces for
a division by a zero total revenue is modelled as `none` in an `Option`.
Grouping (`DataFrame.groupby`, default `sort=True`) sorts the distinct group
keys ascending; `Series.idxmax` returns the first index label attaining the
maximum, and raises on an empty series (modelled as `Except.error`).
-/

deriving instance DecidableEq for Except

/-! Exact-rational arithmetic used by the embedding.  These wrappers compute
the same rational values as the field operations on `Rat` (see the bridge
lemmas `qadd_eq`, `qsub_eq`, `qsum_eq`) but are written with the reducible
smart constructors `mkRat` and `Rat.divInt`, so that the kernel can evaluate
every definition of this file on concrete inputs. -/

/-- Addition of rationals (same value as `a + b`). -/
def qadd (a b : Rat) : Rat :=
  mkRat (a.num * b.den + b.num * a.den) (a.den * b.den)

/-- Subtraction of rationals (same value as `a - b`). -/
def qsub (a b : Rat) : Rat :=
  mkRat (a.num * b.den - b.num * a.den) (a.den * b.den)

/-- Multiplication of rationals (same value as `a * b`). -/
def qmul (a b : Rat) : Rat :=
  mkRat (a.num * b.num) (a.den * b.den)

/-- Division of rationals (same value as `a / b`; division by zero gives 0,
but every division in the embedding is reached only with a nonzero divisor
or modelled separately). -/
def qdiv (a b : Rat) : Rat :=
  Rat.divInt (a.num * b.den) (a.den * b.num)

/-- Sum of a list of rationals (same value as `List.sum`). -/
def qsum : List Rat → Rat
  | [] => 0
  | a :: l => qadd a (qsum l)

/-- Floor of a rational as an integer. -/
def qfloor (a : Rat) : Int :=
  Int.fdiv a.num a.den

/-- Calendar date as parsed by `pd.to_datetime`; only year, month, day are
relevant to this program. -/
structure Date where
  year : Nat
  month : Nat
  day : Nat
deriving DecidableEq, Repr

/-- The month label produced by `Date.dt.strftime` with the full-month format
used at `orchestrator.py:77` and `streamlit_app.py:36`. -/
def monthName (m : Nat) : String :=
  match m with
  | 1 => "January"
  | 2 => "February"
  | 3 => "March"
  | 4 => "April"
  | 5 => "May"
  | 6 => "June"
  | 7 => "July"
  | 8 => "August"
  | 9 => "September"
  | 10 => "October"
  | 11 => "November"
  | 12 => "December"
  | _ => ""

/-- One row of `company_sales.csv` as read by `pd.read_csv`: the five source
columns, before any derived column exists. -/
structure CsvRow where
  date : Date
  product : String
  revenue : Rat
  expenses : Rat
  customers : Rat
deriving DecidableEq, Repr

/-- One row of the in-memory table after `load_data` ran: the five source
columns plus the derived Profit column (`orchestrator.py:23`). -/
structure SalesRecord where
  date : Date
  product : String
  revenue : Rat
  expenses : Rat
  customers : Rat
  profit : Rat
deriving DecidableEq, Repr

/-- The orchestrator's `self.data` frame: its rows, plus the Month column
that `data_analyst_agent` assigns in place at `orchestrator.py:77` (absent
right after `load_data`, which only derives Profit). -/
structure DataFrame where
  rows : List SalesRecord
  monthCol : Option (List String)
deriving DecidableEq, Repr

/-- `load_data` (`orchestrator.py:18-27`): parse the rows and derive
`Profit = Revenue - Expenses`; no Month column yet. -/
def load_data (src : List CsvRow) : DataFrame :=
  { rows := src.map (fun r =>
      { date := r.date, product := r.product, revenue := r.revenue,
        expenses := r.expenses, customers := r.customers,
        profit := qsub r.revenue r.expenses }),
    monthCol := none }

/-- Sum of one numeric column over the rows (`Series.sum`). -/
def colSum (rows : List SalesRecord) (f : SalesRecord → Rat) : Rat :=
  qsum (rows.map f)

/-- Mean of one numeric column over the rows (`Series.mean`). -/
def colMean (rows : List SalesRecord) (f : SalesRecord → Rat) : Rat :=
  qdiv (colSum rows f) (rows.length : Rat)

/-- Round a rational to the nearest integer, ties to even, as Python
`round` and numpy rounding do. -/
def roundHalfEven (q : Rat) : Int :=
  let f : Int := qfloor q
  let r : Rat := qsub q (f : Rat)
  if r < mkRat 1 2 then f
  else if mkRat 1 2 < r then f + 1
  else if f % 2 = 0 then f else f + 1

/-- Python `round(x, 2)` / pandas `.round(2)` under exact-decimal semantics. -/
def round2 (q : Rat) : Rat :=
  qdiv ((roundHalfEven (qmul q 100) : Int) : Rat) 100

/-- Python `round(x, 0)`. -/
def round0 (q : Rat) : Rat :=
  ((roundHalfEven q : Int) : Rat)

/-- Distinct elements of a list in first-seen order, skipping those already
in `seen` (helper for `firstSeen`). -/
def firstSeenAux (seen : List String) : List String → List String
  | [] => []
  | a :: l => if a ∈ seen then firstSeenAux seen l else a :: firstSeenAux (a :: seen) l

/-- Distinct elements of a list in first-seen order (what
`Series.unique` returns, and the order the spec calls insertion order). -/
def firstSeen (l : List String) : List String :=
  firstSeenAux [] l

/-- Codepoint-lexicographic comparison of character lists, the order Python
and numpy use on strings. -/
def strLeb : List Char → List Char → Bool
  | [], _ => true
  | _ :: _, [] => false
  | a :: as, b :: bs =>
    if a.toNat < b.toNat then true
    else if b.toNat < a.toNat then false
    else strLeb as bs

/-- Codepoint-lexicographic comparison of strings (Python string order). -/
def strLe (a b : String) : Bool :=
  strLeb a.data b.data

/-- The distinct group keys in the order `groupby` (default `sort=True`)
emits them: sorted ascending in Python string order. -/
def uniqueSortedKeys (keys : List String) : List String :=
  List.insertionSort (fun a b => strLe a b = true) (firstSeen keys)

/-- The Month label of a row, as the assignment at `orchestrator.py:77`
computes it from the Date column. -/
def recMonth (r : SalesRecord) : String :=
  monthName r.date.month

/-- Sum of column `f` over the rows of one group (`groupby(...).agg` with a
sum aggregate for that column). -/
def groupSumBy (rows : List SalesRecord) (key : SalesRecord → String) (k : String)
    (f : SalesRecord → Rat) : Rat :=
  colSum (rows.filter (fun r => key r = k)) f

/-- One row of the `product_performance` table (`orchestrator.py:69-74`). -/
structure ProdRow where
  revenue : Rat
  expenses : Rat
  profit : Rat
  customers : Rat
deriving DecidableEq, Repr

/-- One row of the `monthly_trends` table (`orchestrator.py:78-81`). -/
structure MonthRow where
  revenue : Rat
  profit : Rat
deriving DecidableEq, Repr

/-- `product_performance` (`orchestrator.py:69-74`): group by Product, sum
Revenue, Expenses, Profit, Customers, then `.round(2)`. -/
def product_performance (rows : List SalesRecord) : List (String × ProdRow) :=
  (uniqueSortedKeys (rows.map (fun r => r.product))).map (fun k =>
    (k, { revenue := round2 (groupSumBy rows (fun r => r.product) k (fun r => r.revenue)),
          expenses := round2 (groupSumBy rows (fun r => r.product) k (fun r => r.expenses)),
          profit := round2 (groupSumBy rows (fun r => r.product) k (fun r => r.profit)),
          customers := round2 (groupSumBy rows (fun r => r.product) k (fun r => r.customers)) }))

/-- `monthly_trends` (`orchestrator.py:78-81`): group by the Month column
just assigned, sum Revenue and Profit, then `.round(2)`. -/
def monthly_trends (rows : List SalesRecord) : List (String × MonthRow) :=
  (uniqueSortedKeys (rows.map recMonth)).map (fun k =>
    (k, { revenue := round2 (groupSumBy rows recMonth k (fun r => r.revenue)),
          profit := round2 (groupSumBy rows recMonth k (fun r => r.profit)) }))

/-- Fold step of `Series.idxmax`: keep the current best label unless a
strictly greater value appears (ties keep the first label). -/
def idxmaxGo (k : String) (v : Rat) : List (String × Rat) → String × Rat
  | [] => (k, v)
  | (k2, v2) :: rest => if v < v2 then idxmaxGo k2 v2 rest else idxmaxGo k v rest

/-- `Series.idxmax`: label of the first maximal entry, `none` on an empty
series (pandas raises a ValueError there). -/
def idxmax : List (String × Rat) → Option (String × Rat)
  | [] => none
  | (k, v) :: rest => some (idxmaxGo k v rest)

/-- The failure of `data_analyst_agent` on an empty table: `idxmax` at
`orchestrator.py:84` raises on an empty series.  The spec's name for this
failure mode is EmptyDatasetError. -/
inductive AnalysisError where
  | emptyArgmax
deriving DecidableEq, Repr

/-- The `analysis_data` dictionary built at `orchestrator.py:87-97`;
`ai_insights` is absent (`none`) until the completion call fills it in.
`profit_margin` is `none` when numpy division by a zero total revenue
produced a non-finite float. -/
structure AnalysisData where
  total_revenue : Rat
  total_expenses : Rat
  total_profit : Rat
  profit_margin : Option Rat
  avg_customers : Rat
  best_month : String
  best_product : String
  product_performance : List (String × ProdRow)
  monthly_trends : List (String × MonthRow)
  ai_insights : Option String
deriving DecidableEq, Repr

/-- The pure computation of `data_analyst_agent` (`orchestrator.py:62-97`):
sums, mean, the two grouped tables, the two `idxmax` calls (line 84 raises
first on empty input), and the metrics dictionary. -/
def analysisCalc (rows : List SalesRecord) : Except AnalysisError AnalysisData :=
  let total_revenue := colSum rows (fun r => r.revenue)
  let total_expenses := colSum rows (fun r => r.expenses)
  let total_profit := colSum rows (fun r => r.profit)
  let avg_customers := colMean rows (fun r => r.customers)
  let pp := product_performance rows
  let mt := monthly_trends rows
  match idxmax (mt.map (fun p => (p.1, p.2.revenue))),
        idxmax (pp.map (fun p => (p.1, p.2.revenue))) with
  | some bm, some bp =>
    Except.ok
      { total_revenue := total_revenue,
        total_expenses := total_expenses,
        total_profit := total_profit,
        profit_margin :=
          if total_revenue = 0 then none
          else some (round2 (qmul (qdiv total_profit total_revenue) 100)),
        avg_customers := round0 avg_customers,
        best_month := bm.1,
        best_product := bp.1,
        product_performance := pp,
        monthly_trends := mt,
        ai_insights := none }
  | _, _ => Except.error AnalysisError.emptyArgmax

/-! The completion-calling agents.  The Groq chat-completion backend is a
black box: an arbitrary function from the rendered prompt to either
generated text or a raised exception (`Except.error` with the exception
text).  Each agent wraps its single backend call in the try/except of the
source, so the agent itself always returns a string. -/

/-- The five call sites of the Completion Client, used to label backend
calls so that the order of stage execution is observable. -/
inductive Stage where
  | analyst
  | summarizer
  | strategist
  | emailer
  | support
deriving DecidableEq, Repr

/-- The completion backend: prompt in, generated text or raised exception
out (`self.client.chat.completions.create`). -/
abbrev Backend : Type :=
  String → Except String String

/-- Decimal-free rendering of a rational for prompt interpolation. -/
def fmtQ (q : Rat) : String :=
  if q.den = 1 then toString q.num else toString q.num ++ "/" ++ toString q.den

/-- Rendering of an optional value for prompt interpolation (`nan` is what
a non-finite float prints as). -/
def fmtOpt (q : Option Rat) : String :=
  match q with
  | some v => fmtQ v
  | none => "nan"

/-- One row of `DataFrame.to_string`. -/
def rowToString (r : SalesRecord) : String :=
  toString r.date.year ++ "-" ++ toString r.date.month ++ "-" ++ toString r.date.day ++ " " ++
    r.product ++ " " ++ fmtQ r.revenue ++ " " ++ fmtQ r.expenses ++ " " ++
    fmtQ r.customers ++ " " ++ fmtQ r.profit

/-- Joins rendered rows with line breaks (`DataFrame.to_string`). -/
def rowsToString : List SalesRecord → String
  | [] => ""
  | [r] => rowToString r
  | r :: rs => rowToString r ++ "\n" ++ rowsToString rs

/-- One row of the rendered product-performance table. -/
def prodRowToString (p : String × ProdRow) : String :=
  p.1 ++ " " ++ fmtQ p.2.revenue ++ " " ++ fmtQ p.2.expenses ++ " " ++
    fmtQ p.2.profit ++ " " ++ fmtQ p.2.customers

/-- Rendered product-performance table (`product_performance.to_string()`). -/
def prodTableToString : List (String × ProdRow) → String
  | [] => ""
  | [p] => prodRowToString p
  | p :: ps => prodRowToString p ++ "\n" ++ prodTableToString ps

/-- Comma-separated join (`', '.join(...)`). -/
def joinCommaSep : List String → String
  | [] => ""
  | [a] => a
  | a :: l => a ++ ", " ++ joinCommaSep l

/-- The analyst prompt template (`orchestrator.py:100-124`) with the key
metrics, the product table and the best month/product interpolated. -/
def analystPrompt (a : AnalysisData) : String :=
  "As a Data Analyst Agent, analyze this company sales data and provide insights:\n" ++
    "Key Metrics:\n- Total Revenue: $" ++ fmtQ a.total_revenue ++
    "\n- Total Expenses: $" ++ fmtQ a.total_expenses ++
    "\n- Total Profit: $" ++ fmtQ a.total_profit ++
    "\n- Profit Margin: " ++ fmtOpt a.profit_margin ++ "%" ++
    "\n- Average Customers per Month: " ++ fmtQ a.avg_customers ++
    "\nProduct Performance:\n" ++ prodTableToString a.product_performance ++
    "\nBest Performing Month: " ++ a.best_month ++
    "\nBest Performing Product: " ++ a.best_product ++
    "\nProvide detailed insights about revenue and profit trends, product performance" ++
    " comparison, customer acquisition patterns, seasonal trends, areas of concern or" ++
    " opportunity. Include specific numbers and calculations in your analysis."

/-- The summarizer prompt template (`orchestrator.py:140-155`), interpolating
the analyst dictionary including its generated insights. -/
def summarizerPrompt (a : AnalysisData) : String :=
  "As a Summarizer Agent, take this detailed analysis and create 4-5 clear, concise" ++
    " bullet points:\nAnalysis Data:\n- Total Revenue: $" ++ fmtQ a.total_revenue ++
    "\n- Total Profit: $" ++ fmtQ a.total_profit ++
    "\n- Profit Margin: " ++ fmtOpt a.profit_margin ++ "%" ++
    "\n- Best Month: " ++ a.best_month ++
    "\n- Best Product: " ++ a.best_product ++
    "\nDetailed Insights:\n" ++ (match a.ai_insights with | some t => t | none => "") ++
    "\nCreate exactly 4-5 bullet points that capture the most important insights." ++
    " Make them simple, clear, and actionable for business decision-making."

/-- The strategy prompt template (`orchestrator.py:169-183`). -/
def strategyPrompt (summary_output : String) : String :=
  "As a Business Strategy Agent, based on these key insights, recommend practical" ++
    " strategies:\nKey Insights:\n" ++ summary_output ++
    "\nProvide specific, actionable recommendations for increasing sales revenue," ++
    " reducing operational costs, growing customer base, improving profit margins," ++
    " seasonal optimization. Make each recommendation practical and implementable" ++
    " with clear next steps."

/-- The email prompt template (`orchestrator.py:242-260`); `today` is the
formatted `datetime.now()` read at call time. -/
def emailPrompt (summary_output strategy_output today : String) : String :=
  "As an Email Reporter Agent, create a professional email for the company boss" ++
    " summarizing monthly performance:\nKey Insights Summary:\n" ++ summary_output ++
    "\nStrategic Recommendations:\n" ++ strategy_output ++
    "\nCreate a formal business email with a professional greeting, executive summary" ++
    " of performance, key insights, strategic recommendations, professional closing." ++
    "\nDate: " ++ today ++
    "\nMake it concise but comprehensive, suitable for a busy executive."

/-- The customer-support prompt (`orchestrator.py:198-226`): dataset overview,
sample rows, key statistics, the full serialized dataset and the question. -/
def supportPrompt (rows : List SalesRecord) (question : String) : String :=
  "As a friendly Customer Support Agent, answer this question about our company" ++
    " sales data:\nQuestion: " ++ question ++
    "\nData Context:\nDataset Overview:\n- Time Period: January 2024 - December 2024" ++
    "\n- Products: " ++ joinCommaSep (firstSeen (rows.map (fun r => r.product))) ++
    "\n- Total Records: " ++ toString rows.length ++
    "\nSample Data:\n" ++ rowsToString (rows.take 5) ++
    "\nKey Statistics:\n- Total Revenue: $" ++ fmtQ (colSum rows (fun r => r.revenue)) ++
    "\n- Total Profit: $" ++ fmtQ (colSum rows (fun r => r.profit)) ++
    "\n- Average Monthly Customers: " ++ fmtQ (colMean rows (fun r => r.customers)) ++
    "\nFull Dataset:\n" ++ rowsToString rows ++
    "\nProvide a friendly, accurate, and helpful response. Include specific numbers" ++
    " when relevant. If the question can not be answered with the available data," ++
    " politely explain what information is available."

/-- One backend call, tagged with the stage of its call site so the call
order is observable in the log. -/
def callCompletion (st : Stage) (backend : Backend) (prompt : String)
    (log : List Stage) : List Stage × Except String String :=
  (log ++ [st], backend prompt)

/-- `data_analyst_agent` (`orchestrator.py:60-136`): assigns the Month column
in place (line 77), computes the metrics, and if that succeeded makes one
completion call whose failure is caught and stringified into `ai_insights`.
On an empty table the `idxmax` error propagates (lines 84-85 raise before
the prompt is ever built), with the Month column already assigned. -/
def data_analyst_agent (backend : Backend) (df : DataFrame) (log : List Stage) :
    DataFrame × List Stage × Except AnalysisError AnalysisData :=
  let df2 : DataFrame := { df with monthCol := some (df.rows.map recMonth) }
  match analysisCalc df.rows with
  | Except.error e => (df2, log, Except.error e)
  | Except.ok base =>
    match callCompletion Stage.analyst backend (analystPrompt base) log with
    | (log2, Except.ok t) =>
      (df2, log2, Except.ok { base with ai_insights := some t })
    | (log2, Except.error e) =>
      (df2, log2, Except.ok { base with ai_insights := some ("Error generating AI insights: " ++ e) })

/-- The value `data_analyst_agent` stores under `ai_insights`: the generated
text, or the stringified exception of the completion call. -/
def insightsOf (r : Except String String) : String :=
  match r with
  | Except.ok t => t
  | Except.error e => "Error generating AI insights: " ++ e

/-- `summarizer_agent` (`orchestrator.py:138-165`): one completion call,
exception caught and turned into an error string. -/
def summarizer_agent (backend : Backend) (analyst_output : AnalysisData)
    (log : List Stage) : List Stage × String :=
  match callCompletion Stage.summarizer backend (summarizerPrompt analyst_output) log with
  | (log2, Except.ok t) => (log2, t)
  | (log2, Except.error e) => (log2, "Error generating summary: " ++ e)

/-- `business_strategy_agent` (`orchestrator.py:167-193`). -/
def business_strategy_agent (backend : Backend) (summary_output : String)
    (log : List Stage) : List Stage × String :=
  match callCompletion Stage.strategist backend (strategyPrompt summary_output) log with
  | (log2, Except.ok t) => (log2, t)
  | (log2, Except.error e) => (log2, "Error generating strategy: " ++ e)

/-- `email_reporter_agent` (`orchestrator.py:238-270`); `today` models the
`datetime.now()` read. -/
def email_reporter_agent (backend : Backend) (summary_output strategy_output today : String)
    (log : List Stage) : List Stage × String :=
  match callCompletion Stage.emailer backend (emailPrompt summary_output strategy_output today) log with
  | (log2, Except.ok t) => (log2, t)
  | (log2, Except.error e) => (log2, "Error generating email report: " ++ e)

/-- `customer_support_agent` (`orchestrator.py:195-236`): reads the dataset,
never writes it, one completion call with the apologetic fallback. -/
def customer_support_agent (backend : Backend) (df : DataFrame) (question : String)
    (log : List Stage) : List Stage × String :=
  match callCompletion Stage.support backend (supportPrompt df.rows question) log with
  | (log2, Except.ok t) => (log2, t)
  | (log2, Except.error e) =>
    (log2, "I apologize, but I encountered an error processing your question: " ++ e)

/-- `customer_support_query` (`orchestrator.py:55-58`), the thin wrapper. -/
def customer_support_query (backend : Backend) (df : DataFrame) (question : String)
    (log : List Stage) : List Stage × String :=
  customer_support_agent backend df question log

/-- The dictionary returned by `run_full_analysis` (`orchestrator.py:48-53`). -/
structure PipelineOutput where
  analysis : AnalysisData
  summary : String
  strategy : String
  email : String
deriving DecidableEq, Repr

/-- `run_full_analysis` (`orchestrator.py:28-53`): the four agents in
sequence, each later prompt built from the earlier output; an exception from
the analyst (empty dataset) propagates, completion failures never do. -/
def run_full_analysis (backend : Backend) (today : String) (df : DataFrame)
    (log : List Stage) : DataFrame × List Stage × Except AnalysisError PipelineOutput :=
  match data_analyst_agent backend df log with
  | (df2, log2, Except.error e) => (df2, log2, Except.error e)
  | (df2, log2, Except.ok analyst_output) =>
    let s := summarizer_agent backend analyst_output log2
    let st := business_strategy_agent backend s.2 s.1
    let em := email_reporter_agent backend s.2 st.2 today st.1
    (df2, em.1, Except.ok
      { analysis := analyst_output, summary := s.2, strategy := st.2, email := em.2 })

/-! Concrete data used by the worked examples: the spec's two-record example
dataset, a dataset with a revenue tie between two products whose sorted
order differs from their first-seen order, and a dataset with zero total
revenue. -/

/-- The spec's example dataset. -/
def exCsv : List CsvRow :=
  [{ date := { year := 2024, month := 1, day := 1 }, product := "Phone",
     revenue := 1000, expenses := 400, customers := 10 },
   { date := { year := 2024, month := 2, day := 1 }, product := "Laptop",
     revenue := 2000, expenses := 500, customers := 5 }]

/-- The loaded frame of the example dataset. -/
def exDf : DataFrame :=
  load_data exCsv

/-- The metrics dictionary the aggregation computes on `exCsv`. -/
def exAnalysis : AnalysisData :=
  { total_revenue := 3000, total_expenses := 900, total_profit := 2100,
    profit_margin := some 70, avg_customers := 8,
    best_month := "February", best_product := "Laptop",
    product_performance :=
      [("Laptop", { revenue := 2000, expenses := 500, profit := 1500, customers := 5 }),
       ("Phone", { revenue := 1000, expenses := 400, profit := 600, customers := 10 })],
    monthly_trends :=
      [("February", { revenue := 2000, profit := 1500 }),
       ("January", { revenue := 1000, profit := 600 })],
    ai_insights := none }

/-- A backend whose every call raises. -/
def backendDown : Backend :=
  fun _ => Except.error ("backend down")

/-- The frame state after the analyst stage ran on `exDf`. -/
def exDf2 : DataFrame :=
  { exDf with monthCol := some ["January", "February"] }

/-- The analyst output on `exCsv` when the completion call raised. -/
def exAnalysisErr : AnalysisData :=
  { exAnalysis with ai_insights := some ("Error generating AI insights: backend down") }

/-- Two products tied on revenue, first seen in the order Zebra, Apple. -/
def tieCsv : List CsvRow :=
  [{ date := { year := 2024, month := 1, day := 1 }, product := "Zebra",
     revenue := 100, expenses := 0, customers := 1 },
   { date := { year := 2024, month := 1, day := 2 }, product := "Apple",
     revenue := 100, expenses := 0, customers := 1 }]

/-- The metrics dictionary the aggregation computes on `tieCsv`. -/
def tieAnalysis : AnalysisData :=
  { total_revenue := 200, total_expenses := 0, total_profit := 200,
    profit_margin := some 100, avg_customers := 1,
    best_month := "January", best_product := "Apple",
    product_performance :=
      [("Apple", { revenue := 100, expenses := 0, profit := 100, customers := 1 }),
       ("Zebra", { revenue := 100, expenses := 0, profit := 100, customers := 1 })],
    monthly_trends := [("January", { revenue := 200, profit := 200 })],
    ai_insights := none }

/-- One record with zero revenue: total revenue is zero but the dataset is
not empty. -/
def zeroRevCsv : List CsvRow :=
  [{ date := { year := 2024, month := 3, day := 5 }, product := "Pen",
     revenue := 0, expenses := 5, customers := 2 }]

/-- The metrics dictionary the aggregation computes on `zeroRevCsv`: it
succeeds, with a non-finite (`none`) margin. -/
def zeroAnalysis : AnalysisData :=
  { total_revenue := 0, total_expenses := 5, total_profit := -5,
    profit_margin := none, avg_customers := 2,
    best_month := "March", best_product := "Pen",
    product_performance :=
      [("Pen", { revenue := 0, expenses := 5, profit := -5, customers := 2 })],
    monthly_trends := [("March", { revenue := 0, profit := -5 })],
    ai_insights := none }

/-! Bridge lemmas: the computable arithmetic wrappers agree with the field
operations on `Rat`. -/

/-- `qadd` computes addition. -/
theorem qadd_eq (a b : Rat) : qadd a b = a + b := by
  rw [qadd, Rat.mkRat_eq_divInt, Rat.divInt_eq_div]
  have ha : ((a.den : Rat)) ≠ 0 := by positivity
  have hb : ((b.den : Rat)) ≠ 0 := by positivity
  conv_rhs => rw [← Rat.num_div_den a, ← Rat.num_div_den b]
  push_cast
  field_simp
  try ring

/-- `qsub` computes subtraction. -/
theorem qsub_eq (a b : Rat) : qsub a b = a - b := by
  rw [qsub, Rat.mkRat_eq_divInt, Rat.divInt_eq_div]
  have ha : ((a.den : Rat)) ≠ 0 := by positivity
  have hb : ((b.den : Rat)) ≠ 0 := by positivity
  conv_rhs => rw [← Rat.num_div_den a, ← Rat.num_div_den b]
  push_cast
  field_simp
  try ring

/-- `qmul` computes multiplication. -/
theorem qmul_eq (a b : Rat) : qmul a b = a * b := by
  rw [qmul, Rat.mkRat_eq_divInt, Rat.divInt_eq_div]
  have ha : ((a.den : Rat)) ≠ 0 := by positivity
  have hb : ((b.den : Rat)) ≠ 0 := by positivity
  conv_rhs => rw [← Rat.num_div_den a, ← Rat.num_div_den b]
  push_cast
  field_simp
  try ring

/-- `qdiv` computes division (both sides send a zero divisor to 0). -/
theorem qdiv_eq (a b : Rat) : qdiv a b = a / b := by
  rw [qdiv, Rat.divInt_eq_div]
  by_cases hb : b = 0
  · subst hb
    norm_num
  · have hbn : (b.num : Rat) ≠ 0 := by
      exact_mod_cast Rat.num_ne_zero.mpr hb
    have ha : ((a.den : Rat)) ≠ 0 := by positivity
    have hd : ((b.den : Rat)) ≠ 0 := by positivity
    conv_rhs => rw [← Rat.num_div_den a, ← Rat.num_div_den b]
    push_cast
    field_simp
    try ring

/-- `qsum` computes `List.sum`. -/
theorem qsum_eq (l : List Rat) : qsum l = l.sum := by
  induction l with
  | nil => rfl
  | cons a l ih => rw [qsum, qadd_eq, ih, List.sum_cons]

/-! Order lemmas for the Python string order, and the instances that let the
sortedness of `List.insertionSort` apply to it. -/

/-- The codepoint order on character lists is total. -/
theorem strLeb_total : ∀ (a b : List Char), strLeb a b = true ∨ strLeb b a = true
  | [], _ => Or.inl rfl
  | _ :: _, [] => Or.inr rfl
  | x :: xs, y :: ys => by
    simp only [strLeb]
    by_cases h1 : x.toNat < y.toNat
    · simp [h1]
    · by_cases h2 : y.toNat < x.toNat
      · simp [h1, h2]
      · simp only [h1, h2, if_false, if_true, if_neg, if_pos]
        simpa [h1, h2] using strLeb_total xs ys

/-- The codepoint order on character lists is transitive. -/
theorem strLeb_trans : ∀ (a b c : List Char),
    strLeb a b = true → strLeb b c = true → strLeb a c = true
  | [], _, _ => by intro _ _; rfl
  | x :: xs, [], _ => by intro h _; exact absurd h (by simp [strLeb])
  | x :: xs, y :: ys, [] => by intro _ h2; exact absurd h2 (by simp [strLeb])
  | x :: xs, y :: ys, z :: zs => by
    simp only [strLeb]
    intro h1 h2
    by_cases h1a : x.toNat < y.toNat
    · by_cases h2a : y.toNat < z.toNat
      · have hz : x.toNat < z.toNat := Nat.lt_trans h1a h2a
        simp [hz]
      · by_cases h2b : z.toNat < y.toNat
        · rw [if_neg h2a, if_pos h2b] at h2
          exact absurd h2 (by simp)
        · have hz : x.toNat < z.toNat := by omega
          simp [hz]
    · by_cases h1b : y.toNat < x.toNat
      · rw [if_neg h1a, if_pos h1b] at h1
        exact absurd h1 (by simp)
      · rw [if_neg h1a, if_neg h1b] at h1
        by_cases h2a : y.toNat < z.toNat
        · have hz : x.toNat < z.toNat := by omega
          simp [hz]
        · by_cases h2b : z.toNat < y.toNat
          · rw [if_neg h2a, if_pos h2b] at h2
            exact absurd h2 (by simp)
          · rw [if_neg h2a, if_neg h2b] at h2
            have hxz : ¬ x.toNat < z.toNat := by omega
            have hzx : ¬ z.toNat < x.toNat := by omega
            rw [if_neg hxz, if_neg hzx]
            exact strLeb_trans xs ys zs h1 h2

instance : IsTotal String (fun a b => strLe a b = true) :=
  ⟨fun a b => strLeb_total a.data b.data⟩

instance : IsTrans String (fun a b => strLe a b = true) :=
  ⟨fun a b c => strLeb_trans a.data b.data c.data⟩

/-! Lemmas about `firstSeen` and `uniqueSortedKeys`. -/

/-- Membership in `firstSeenAux`. -/
theorem mem_firstSeenAux (x : String) :
    ∀ (l seen : List String), x ∈ firstSeenAux seen l ↔ x ∈ l ∧ x ∉ seen := by
  intro l
  induction l with
  | nil => intro seen; simp [firstSeenAux]
  | cons a l ih =>
    intro seen
    by_cases h : a ∈ seen
    · rw [firstSeenAux, if_pos h, ih]
      constructor
      · rintro ⟨hx, hs⟩
        exact ⟨List.mem_cons_of_mem _ hx, hs⟩
      · rintro ⟨hx, hs⟩
        rcases List.mem_cons.mp hx with rfl | hx
        · exact absurd h hs
        · exact ⟨hx, hs⟩
    · rw [firstSeenAux, if_neg h]
      constructor
      · intro hx
        rcases List.mem_cons.mp hx with rfl | hx
        · exact ⟨List.mem_cons_self _ _, h⟩
        · obtain ⟨hl, hs⟩ := (ih (a :: seen)).mp hx
          refine ⟨List.mem_cons_of_mem _ hl, fun hxs => hs (List.mem_cons_of_mem _ hxs)⟩
      · rintro ⟨hx, hs⟩
        rcases List.mem_cons.mp hx with rfl | hx
        · exact List.mem_cons_self _ _
        · by_cases hxa : x = a
          · subst hxa; exact List.mem_cons_self _ _
          · exact List.mem_cons_of_mem _
              ((ih (a :: seen)).mpr ⟨hx, fun hxs => by
                rcases List.mem_cons.mp hxs with h1 | h1
                · exact hxa h1
                · exact hs h1⟩)

/-- Membership in `firstSeen`. -/
theorem mem_firstSeen (x : String) (l : List String) :
    x ∈ firstSeen l ↔ x ∈ l := by
  rw [firstSeen, mem_firstSeenAux]
  simp

/-- `firstSeenAux` contains no duplicates. -/
theorem nodup_firstSeenAux : ∀ (l seen : List String), (firstSeenAux seen l).Nodup := by
  intro l
  induction l with
  | nil => intro seen; simp [firstSeenAux]
  | cons a l ih =>
    intro seen
    by_cases h : a ∈ seen
    · rw [firstSeenAux, if_pos h]
      exact ih seen
    · rw [firstSeenAux, if_neg h]
      refine List.Nodup.cons ?_ (ih (a :: seen))
      intro hmem
      exact ((mem_firstSeenAux a l (a :: seen)).mp hmem).2 (List.mem_cons_self _ _)

/-- `firstSeen` contains no duplicates. -/
theorem nodup_firstSeen (l : List String) : (firstSeen l).Nodup :=
  nodup_firstSeenAux l []

/-- The group-key list is sorted in Python string order. -/
theorem uniqueSortedKeys_sorted (keys : List String) :
    List.Sorted (fun a b => strLe a b = true) (uniqueSortedKeys keys) :=
  List.sorted_insertionSort (fun a b => strLe a b = true) (firstSeen keys)

/-- The group-key list has exactly the distinct keys of the input. -/
theorem mem_uniqueSortedKeys (x : String) (keys : List String) :
    x ∈ uniqueSortedKeys keys ↔ x ∈ keys := by
  rw [uniqueSortedKeys, List.mem_insertionSort, mem_firstSeen]

/-- The group-key list has no duplicates. -/
theorem nodup_uniqueSortedKeys (keys : List String) :
    (uniqueSortedKeys keys).Nodup :=
  ((List.perm_insertionSort (fun a b => strLe a b = true) (firstSeen keys)).nodup_iff).mpr
    (nodup_firstSeen keys)

/-- A sorted nonempty key list starts with its head (helper shape): the
insertion sort of a nonempty list is nonempty. -/
theorem uniqueSortedKeys_ne_nil (x : String) (l : List String) :
    uniqueSortedKeys (x :: l) ≠ [] := by
  intro hnil
  have hperm := List.perm_insertionSort (fun a b => strLe a b = true) (firstSeen (x :: l))
  rw [uniqueSortedKeys] at hnil
  rw [hnil] at hperm
  have : firstSeen (x :: l) = [] := hperm.symm.eq_nil
  have hcons : firstSeen (x :: l) = x :: firstSeenAux [x] l := by
    rw [firstSeen, firstSeenAux]
    simp
  rw [hcons] at this
  exact List.cons_ne_nil _ _ this

/-- The Python string order is reflexive. -/
theorem strLeb_refl : ∀ (a : List Char), strLeb a a = true
  | [] => rfl
  | x :: xs => by
    simp only [strLeb, Nat.lt_irrefl, if_false]
    simpa using strLeb_refl xs

/-- Reflexivity of `strLe`. -/
theorem strLe_refl (a : String) : strLe a a = true :=
  strLeb_refl a.data

/-- Transitivity of `strLe`. -/
theorem strLe_trans (a b c : String) (h1 : strLe a b = true) (h2 : strLe b c = true) :
    strLe a c = true :=
  strLeb_trans a.data b.data c.data h1 h2

/-! Lemmas about `idxmax`. -/

/-- The entry `idxmaxGo` returns is one of the entries it saw. -/
theorem idxmaxGo_mem : ∀ (l : List (String × Rat)) (k : String) (v : Rat),
    idxmaxGo k v l ∈ (k, v) :: l
  | [], _, _ => List.mem_cons_self _ _
  | (k2, v2) :: rest, k, v => by
    rw [idxmaxGo]
    by_cases hv : v < v2
    · rw [if_pos hv]
      exact List.mem_cons_of_mem _ (idxmaxGo_mem rest k2 v2)
    · rw [if_neg hv]
      rcases List.mem_cons.mp (idxmaxGo_mem rest k v) with h | h
      · rw [h]
        exact List.mem_cons_self _ _
      · exact List.mem_cons_of_mem _ (List.mem_cons_of_mem _ h)

/-- On a key-sorted series, `idxmaxGo` returns a maximal value, and among
ties the key smallest in the sort order (the first row of the series). -/
theorem idxmaxGo_spec : ∀ (l : List (String × Rat)) (k : String) (v : Rat),
    List.Pairwise (fun p q => strLe p.1 q.1 = true) ((k, v) :: l) →
    ∀ p ∈ (k, v) :: l, p.2 ≤ (idxmaxGo k v l).2 ∧
      (p.2 = (idxmaxGo k v l).2 → strLe (idxmaxGo k v l).1 p.1 = true)
  | [], k, v => by
    intro _ p hp
    rcases List.mem_cons.mp hp with rfl | h
    · exact ⟨le_refl _, fun _ => strLe_refl k⟩
    · exact absurd h (List.not_mem_nil p)
  | (k2, v2) :: rest, k, v => by
    intro hs p hp
    rcases List.pairwise_cons.mp hs with ⟨hk, hs2⟩
    by_cases hv : v < v2
    · rw [idxmaxGo, if_pos hv]
      have ih := idxmaxGo_spec rest k2 v2 hs2
      rcases List.mem_cons.mp hp with rfl | hp2
      · have h2 := ih (k2, v2) (List.mem_cons_self _ _)
        refine ⟨le_of_lt (lt_of_lt_of_le hv h2.1), fun he => ?_⟩
        exact absurd he (ne_of_lt (lt_of_lt_of_le hv h2.1))
      · exact ih p hp2
    · rw [idxmaxGo, if_neg hv]
      have hv2 : v2 ≤ v := le_of_not_lt hv
      have hpair : List.Pairwise (fun p q => strLe p.1 q.1 = true) ((k, v) :: rest) := by
        refine List.pairwise_cons.mpr ⟨?_, hs2.of_cons⟩
        intro q hq
        exact hk q (List.mem_cons_of_mem _ hq)
      have ih := idxmaxGo_spec rest k v hpair
      rcases List.mem_cons.mp hp with rfl | hp2
      · exact ih (k, v) (List.mem_cons_self _ _)
      · rcases List.mem_cons.mp hp2 with rfl | hp3
        · have hhead := ih (k, v) (List.mem_cons_self _ _)
          refine ⟨le_trans hv2 hhead.1, fun he => ?_⟩
          have hvv : v = (idxmaxGo k v rest).2 :=
            le_antisymm hhead.1 (he ▸ hv2)
          have h1 : strLe (idxmaxGo k v rest).1 k = true := hhead.2 hvv
          have h2 : strLe k k2 = true := hk (k2, v2) (List.mem_cons_self _ _)
          exact strLe_trans _ _ _ h1 h2
        · exact ih p (List.mem_cons_of_mem _ hp3)

/-- On a key-sorted series, `idxmax` returns a member of the series carrying
the maximal value; among ties its key is smallest in the sort order. -/
theorem idxmax_spec (t : List (String × Rat))
    (hs : List.Pairwise (fun p q => strLe p.1 q.1 = true) t) (kb : String) (vb : Rat)
    (h : idxmax t = some (kb, vb)) :
    (kb, vb) ∈ t ∧ ∀ p ∈ t, p.2 ≤ vb ∧ (p.2 = vb → strLe kb p.1 = true) := by
  match t, h with
  | (k, v) :: rest, h =>
    rw [idxmax] at h
    have hgo : idxmaxGo k v rest = (kb, vb) := Option.some.inj h
    constructor
    · rw [← hgo]
      exact idxmaxGo_mem rest k v
    · intro p hp
      have := idxmaxGo_spec rest k v hs p hp
      rw [hgo] at this
      exact this

/-- `idxmax` of a nonempty series succeeds. -/
theorem idxmax_isSome (p : String × Rat) (rest : List (String × Rat)) :
    ∃ q, idxmax (p :: rest) = some q := by
  rcases p with ⟨k, v⟩
  exact ⟨idxmaxGo k v rest, rfl⟩

/-! Structural lemmas about the aggregation. -/

/-- The product series fed to `idxmax` is key-sorted. -/
theorem product_series_pairwise (rows : List SalesRecord) :
    List.Pairwise (fun p q => strLe p.1 q.1 = true)
      ((product_performance rows).map (fun p => (p.1, p.2.revenue))) := by
  rw [product_performance, List.map_map, List.pairwise_map]
  exact uniqueSortedKeys_sorted _

/-- The month series fed to `idxmax` is key-sorted. -/
theorem month_series_pairwise (rows : List SalesRecord) :
    List.Pairwise (fun p q => strLe p.1 q.1 = true)
      ((monthly_trends rows).map (fun p => (p.1, p.2.revenue))) := by
  rw [monthly_trends, List.map_map, List.pairwise_map]
  exact uniqueSortedKeys_sorted _

/-- What a successful aggregation returns: every field of the metrics
dictionary is pinned to its defining expression. -/
theorem analysisCalc_ok_inv (rows : List SalesRecord) (a : AnalysisData)
    (h : analysisCalc rows = Except.ok a) :
    a.total_revenue = colSum rows (fun r => r.revenue) ∧
    a.total_expenses = colSum rows (fun r => r.expenses) ∧
    a.total_profit = colSum rows (fun r => r.profit) ∧
    a.avg_customers = round0 (colMean rows (fun r => r.customers)) ∧
    a.product_performance = product_performance rows ∧
    a.monthly_trends = monthly_trends rows ∧
    a.profit_margin = (if colSum rows (fun r => r.revenue) = 0 then none
      else some (round2 (qmul (qdiv (colSum rows (fun r => r.profit))
        (colSum rows (fun r => r.revenue))) 100))) ∧
    a.ai_insights = none ∧
    (∃ bm, idxmax ((monthly_trends rows).map (fun p => (p.1, p.2.revenue))) = some bm ∧
      a.best_month = bm.1) ∧
    (∃ bp, idxmax ((product_performance rows).map (fun p => (p.1, p.2.revenue))) = some bp ∧
      a.best_product = bp.1) := by
  simp only [analysisCalc] at h
  rcases hbm : idxmax ((monthly_trends rows).map (fun p => (p.1, p.2.revenue))) with _ | bm <;>
    rcases hbp : idxmax ((product_performance rows).map (fun p => (p.1, p.2.revenue))) with _ | bp <;>
    rw [hbm, hbp] at h
  · exact absurd h (by simp)
  · exact absurd h (by simp)
  · exact absurd h (by simp)
  · injection h with h2
    subst h2
    exact ⟨rfl, rfl, rfl, rfl, rfl, rfl, rfl, rfl, ⟨bm, hbm, rfl⟩, ⟨bp, hbp, rfl⟩⟩

/-- `idxmax` of a nonempty series succeeds (nonemptiness form). -/
theorem idxmax_of_ne_nil (t : List (String × Rat)) (h : t ≠ []) :
    ∃ q, idxmax t = some q := by
  cases t with
  | nil => exact absurd rfl h
  | cons p rest => exact idxmax_isSome p rest

/-- The aggregation succeeds on every nonempty dataset. -/
theorem analysisCalc_cons_ok (r : SalesRecord) (rs : List SalesRecord) :
    ∃ a, analysisCalc (r :: rs) = Except.ok a := by
  obtain ⟨bm, hbm⟩ :=
    idxmax_of_ne_nil ((monthly_trends (r :: rs)).map (fun p => (p.1, p.2.revenue))) (by
      rw [monthly_trends, List.map_map]
      intro hnil
      rw [List.map_eq_nil_iff] at hnil
      rw [List.map_cons] at hnil
      exact uniqueSortedKeys_ne_nil _ _ hnil)
  obtain ⟨bp, hbp⟩ :=
    idxmax_of_ne_nil ((product_performance (r :: rs)).map (fun p => (p.1, p.2.revenue))) (by
      rw [product_performance, List.map_map]
      intro hnil
      rw [List.map_eq_nil_iff] at hnil
      rw [List.map_cons] at hnil
      exact uniqueSortedKeys_ne_nil _ _ hnil)
  rcases hres : analysisCalc (r :: rs) with e | a
  · exfalso
    simp only [analysisCalc] at hres
    rw [hbm, hbp] at hres
    simp at hres
  · exact ⟨a, rfl⟩

/-! Equation lemmas for the agents. -/

/-- The analyst agent when the aggregation fails: Month column assigned, no
completion call made, the exception propagates. -/
theorem data_analyst_agent_err_eq (backend : Backend) (df : DataFrame) (log : List Stage)
    (e : AnalysisError) (h : analysisCalc df.rows = Except.error e) :
    data_analyst_agent backend df log =
      ({ df with monthCol := some (df.rows.map recMonth) }, log, Except.error e) := by
  simp only [data_analyst_agent, h]

/-- The analyst agent when the aggregation succeeds: Month column assigned,
one completion call logged, its outcome stringified into `ai_insights`. -/
theorem data_analyst_agent_ok_eq (backend : Backend) (df : DataFrame) (log : List Stage)
    (base : AnalysisData) (h : analysisCalc df.rows = Except.ok base) :
    data_analyst_agent backend df log =
      ({ df with monthCol := some (df.rows.map recMonth) }, log ++ [Stage.analyst],
        Except.ok { base with ai_insights := some (insightsOf (backend (analystPrompt base))) }) := by
  simp only [data_analyst_agent, callCompletion, h]
  cases hb : backend (analystPrompt base) <;> simp [insightsOf, hb]

/-- The summarizer agent always logs one call and returns the text or the
stringified exception. -/
theorem summarizer_agent_eq (backend : Backend) (a : AnalysisData) (log : List Stage) :
    summarizer_agent backend a log =
      (log ++ [Stage.summarizer],
        match backend (summarizerPrompt a) with
        | Except.ok t => t
        | Except.error e => "Error generating summary: " ++ e) := by
  cases hb : backend (summarizerPrompt a) <;>
    simp [summarizer_agent, callCompletion, hb]

/-- The strategy agent always logs one call and returns the text or the
stringified exception. -/
theorem business_strategy_agent_eq (backend : Backend) (s : String) (log : List Stage) :
    business_strategy_agent backend s log =
      (log ++ [Stage.strategist],
        match backend (strategyPrompt s) with
        | Except.ok t => t
        | Except.error e => "Error generating strategy: " ++ e) := by
  cases hb : backend (strategyPrompt s) <;>
    simp [business_strategy_agent, callCompletion, hb]

/-- The email agent always logs one call and returns the text or the
stringified exception. -/
theorem email_reporter_agent_eq (backend : Backend) (s st today : String) (log : List Stage) :
    email_reporter_agent backend s st today log =
      (log ++ [Stage.emailer],
        match backend (emailPrompt s st today) with
        | Except.ok t => t
        | Except.error e => "Error generating email report: " ++ e) := by
  cases hb : backend (emailPrompt s st today) <;>
    simp [email_reporter_agent, callCompletion, hb]

/-- The support agent always logs one call and returns the text or the
apologetic fallback. -/
theorem customer_support_agent_eq (backend : Backend) (df : DataFrame) (q : String)
    (log : List Stage) :
    customer_support_agent backend df q log =
      (log ++ [Stage.support],
        match backend (supportPrompt df.rows q) with
        | Except.ok t => t
        | Except.error e =>
          "I apologize, but I encountered an error processing your question: " ++ e) := by
  cases hb : backend (supportPrompt df.rows q) <;>
    simp [customer_support_agent, callCompletion, hb]

/-- On any loaded dataset the Profit column sums to the Revenue sum minus
the Expenses sum, because `load_data` derives each Profit entry that way. -/
theorem load_profit_sum (src : List CsvRow) :
    colSum (load_data src).rows (fun r => r.profit) =
      colSum (load_data src).rows (fun r => r.revenue) -
        colSum (load_data src).rows (fun r => r.expenses) := by
  induction src with
  | nil => simp [load_data, colSum, qsum]
  | cons c l ih =>
    simp only [load_data, colSum, List.map_cons, qsum, qadd_eq, qsub_eq] at ih ⊢
    rw [ih]
    ring

/-- C1: for every run of the full-analysis pipeline on a nonempty dataset,
the four stages are visited in the fixed order Analyst, Summarizer,
Strategist, Emailer, each exactly once, whatever each Completion Client call
does; the terminal result carries all four text fields.  (On an empty
dataset the analyst stage itself raises before any completion call, which
the spec classifies as the fatal EmptyDatasetError, so no pipeline run
completes there.) -/
theorem c1_pipeline_stage_order (backend : Backend) (today : String) (df : DataFrame)
    (log : List Stage) (h : df.rows ≠ []) :
    (run_full_analysis backend today df log).2.1 =
      log ++ [Stage.analyst, Stage.summarizer, Stage.strategist, Stage.emailer] ∧
    ∃ out, (run_full_analysis backend today df log).2.2 = Except.ok out := by
  obtain ⟨r, rs, hrows⟩ := List.exists_cons_of_ne_nil h
  obtain ⟨base, hbase⟩ := analysisCalc_cons_ok r rs
  have hcalc : analysisCalc df.rows = Except.ok base := by rw [hrows]; exact hbase
  constructor
  · simp only [run_full_analysis, data_analyst_agent_ok_eq backend df log base hcalc,
      summarizer_agent_eq, business_strategy_agent_eq, email_reporter_agent_eq]
    simp [List.append_assoc]
  · simp only [run_full_analysis, data_analyst_agent_ok_eq backend df log base hcalc,
      summarizer_agent_eq, business_strategy_agent_eq, email_reporter_agent_eq]
    exact ⟨_, rfl⟩

/-- Witness for C1 at the example dataset with an always-raising backend. -/
theorem c1_pipeline_stage_order_witness :
    exDf.rows ≠ [] ∧
    ((run_full_analysis backendDown "October 12, 2026" exDf []).2.1 =
      [] ++ [Stage.analyst, Stage.summarizer, Stage.strategist, Stage.emailer] ∧
     ∃ out, (run_full_analysis backendDown "October 12, 2026" exDf []).2.2 = Except.ok out) :=
  ⟨by decide, c1_pipeline_stage_order backendDown "October 12, 2026" exDf [] (by decide)⟩

/-- C2: every completion-calling operation (analyst, summarizer, strategist,
email reporter, customer-support query) returns a string for every backend
behaviour including a raised exception: either the generated text or a
string describing the error; no backend exception escapes the operation. -/
theorem c2_completion_soft_failure :
    (∀ (backend : Backend) (df : DataFrame) (log : List Stage) (df1 : DataFrame)
        (log1 : List Stage) (a : AnalysisData),
        data_analyst_agent backend df log = (df1, log1, Except.ok a) →
        ∃ base, analysisCalc df.rows = Except.ok base ∧
          ((∃ t, backend (analystPrompt base) = Except.ok t ∧ a.ai_insights = some t) ∨
           (∃ e, backend (analystPrompt base) = Except.error e ∧
              a.ai_insights = some ("Error generating AI insights: " ++ e)))) ∧
    (∀ (backend : Backend) (a : AnalysisData) (log : List Stage),
        (∃ t, backend (summarizerPrompt a) = Except.ok t ∧
           (summarizer_agent backend a log).2 = t) ∨
        (∃ e, backend (summarizerPrompt a) = Except.error e ∧
           (summarizer_agent backend a log).2 = "Error generating summary: " ++ e)) ∧
    (∀ (backend : Backend) (s : String) (log : List Stage),
        (∃ t, backend (strategyPrompt s) = Except.ok t ∧
           (business_strategy_agent backend s log).2 = t) ∨
        (∃ e, backend (strategyPrompt s) = Except.error e ∧
           (business_strategy_agent backend s log).2 = "Error generating strategy: " ++ e)) ∧
    (∀ (backend : Backend) (s st today : String) (log : List Stage),
        (∃ t, backend (emailPrompt s st today) = Except.ok t ∧
           (email_reporter_agent backend s st today log).2 = t) ∨
        (∃ e, backend (emailPrompt s st today) = Except.error e ∧
           (email_reporter_agent backend s st today log).2 =
             "Error generating email report: " ++ e)) ∧
    (∀ (backend : Backend) (df : DataFrame) (q : String) (log : List Stage),
        (∃ t, backend (supportPrompt df.rows q) = Except.ok t ∧
           (customer_support_query backend df q log).2 = t) ∨
        (∃ e, backend (supportPrompt df.rows q) = Except.error e ∧
           (customer_support_query backend df q log).2 =
             "I apologize, but I encountered an error processing your question: " ++ e)) := by
  refine ⟨?_, ?_, ?_, ?_, ?_⟩
  · intro backend df log df1 log1 a h
    rcases hc : analysisCalc df.rows with e | base
    · rw [data_analyst_agent_err_eq backend df log e hc] at h
      simp at h
    · rw [data_analyst_agent_ok_eq backend df log base hc] at h
      simp only [Prod.mk.injEq, Except.ok.injEq] at h
      obtain ⟨hdf1, hlog1, ha⟩ := h
      refine ⟨base, rfl, ?_⟩
      cases hb : backend (analystPrompt base) with
      | ok t =>
        left
        refine ⟨t, rfl, ?_⟩
        rw [← ha]
        simp [insightsOf, hb]
      | error e =>
        right
        refine ⟨e, rfl, ?_⟩
        rw [← ha]
        simp [insightsOf, hb]
  · intro backend a log
    cases hb : backend (summarizerPrompt a) with
    | ok t => exact Or.inl ⟨t, rfl, by rw [summarizer_agent_eq, hb]⟩
    | error e => exact Or.inr ⟨e, rfl, by rw [summarizer_agent_eq, hb]⟩
  · intro backend s log
    cases hb : backend (strategyPrompt s) with
    | ok t => exact Or.inl ⟨t, rfl, by rw [business_strategy_agent_eq, hb]⟩
    | error e => exact Or.inr ⟨e, rfl, by rw [business_strategy_agent_eq, hb]⟩
  · intro backend s st today log
    cases hb : backend (emailPrompt s st today) with
    | ok t => exact Or.inl ⟨t, rfl, by rw [email_reporter_agent_eq, hb]⟩
    | error e => exact Or.inr ⟨e, rfl, by rw [email_reporter_agent_eq, hb]⟩
  · intro backend df q log
    cases hb : backend (supportPrompt df.rows q) with
    | ok t => exact Or.inl ⟨t, rfl, by rw [customer_support_query, customer_support_agent_eq, hb]⟩
    | error e => exact Or.inr ⟨e, rfl, by rw [customer_support_query, customer_support_agent_eq, hb]⟩

/-- Witness for C2: the analyst conjunct applied to the example dataset and
an always-raising backend. -/
theorem c2_completion_soft_failure_witness :
    ∃ base, analysisCalc exDf.rows = Except.ok base ∧
      ((∃ t, backendDown (analystPrompt base) = Except.ok t ∧
          exAnalysisErr.ai_insights = some t) ∨
       (∃ e, backendDown (analystPrompt base) = Except.error e ∧
          exAnalysisErr.ai_insights = some ("Error generating AI insights: " ++ e))) :=
  c2_completion_soft_failure.1 backendDown exDf [] exDf2 [Stage.analyst] exAnalysisErr
    (by decide)

/-- C3: on every nonempty loaded dataset whose aggregation succeeds, the
total profit equals total revenue minus total expenses exactly (per-record
profit is derived at load time as revenue minus expenses). -/
theorem c3_profit_sum_identity (src : List CsvRow) (a : AnalysisData)
    (h : analysisCalc (load_data src).rows = Except.ok a) :
    a.total_profit = a.total_revenue - a.total_expenses := by
  obtain ⟨h1, h2, h3, _⟩ := analysisCalc_ok_inv _ a h
  rw [h1, h2, h3, load_profit_sum]

/-- Witness for C3 at the example dataset. -/
theorem c3_profit_sum_identity_witness :
    analysisCalc (load_data exCsv).rows = Except.ok exAnalysis ∧
    exAnalysis.total_profit = exAnalysis.total_revenue - exAnalysis.total_expenses :=
  ⟨by decide, c3_profit_sum_identity exCsv exAnalysis (by decide)⟩

/-- C4: the aggregation on a dataset with zero records fails (line 84 of the
source raises on `idxmax` of an empty series — the failure the spec names
EmptyDatasetError) and never silently divides by zero: the profit-margin
division is only reached after both `idxmax` calls succeed, so no metrics
dictionary exists on the empty path. -/
theorem c4_empty_dataset_error :
    analysisCalc ([] : List SalesRecord) = Except.error AnalysisError.emptyArgmax ∧
    ∀ (backend : Backend) (log : List Stage),
      (data_analyst_agent backend (load_data []) log).2.2 =
        Except.error AnalysisError.emptyArgmax := by
  refine ⟨by decide, ?_⟩
  intro backend log
  rw [data_analyst_agent_err_eq backend (load_data []) log AnalysisError.emptyArgmax (by decide)]

/-- C10: on the spec's worked two-record example, the aggregation yields
totalRevenue 3000, totalExpenses 900, totalProfit 2100, profitMargin 70,
bestProduct Laptop and bestMonth February. -/
theorem c10_worked_example :
    analysisCalc (load_data exCsv).rows = Except.ok exAnalysis ∧
    exAnalysis.total_revenue = 3000 ∧ exAnalysis.total_expenses = 900 ∧
    exAnalysis.total_profit = 2100 ∧ exAnalysis.profit_margin = some 70 ∧
    exAnalysis.best_product = "Laptop" ∧ exAnalysis.best_month = "February" := by
  decide

/-- C5 (amended): bestProduct and bestMonth attain the maximum summed
revenue within their groupings; when several keys tie for the maximum, the
key returned is the first row of the grouped table, which is the smallest
tied key in the sorted key order — not the first-encountered key of the
dataset. -/
theorem c5_best_argmax (rows : List SalesRecord) (a : AnalysisData)
    (h : analysisCalc rows = Except.ok a) :
    (∃ pr, (a.best_product, pr) ∈ a.product_performance ∧
       (∀ p ∈ a.product_performance, p.2.revenue ≤ pr.revenue) ∧
       (∀ p ∈ a.product_performance, p.2.revenue = pr.revenue →
          strLe a.best_product p.1 = true)) ∧
    (∃ mr, (a.best_month, mr) ∈ a.monthly_trends ∧
       (∀ p ∈ a.monthly_trends, p.2.revenue ≤ mr.revenue) ∧
       (∀ p ∈ a.monthly_trends, p.2.revenue = mr.revenue →
          strLe a.best_month p.1 = true)) := by
  obtain ⟨_, _, _, _, hpp, hmt, _, _, ⟨bm, hbm, hbmeq⟩, ⟨bp, hbp, hbpeq⟩⟩ :=
    analysisCalc_ok_inv rows a h
  constructor
  · rcases bp with ⟨kb, vb⟩
    obtain ⟨hmem, hmax⟩ := idxmax_spec _ (product_series_pairwise rows) kb vb hbp
    obtain ⟨x, hx, hxeq⟩ := List.mem_map.mp hmem
    have hx1 : x.1 = kb := congrArg Prod.fst hxeq
    have hx2 : x.2.revenue = vb := congrArg Prod.snd hxeq
    refine ⟨x.2, ?_, ?_, ?_⟩
    · rw [hpp, hbpeq, ← hx1]
      simpa using hx
    · intro p hp
      rw [hpp] at hp
      have hps : (p.1, p.2.revenue) ∈
          (product_performance rows).map (fun q => (q.1, q.2.revenue)) :=
        List.mem_map.mpr ⟨p, hp, rfl⟩
      rw [hx2]
      exact (hmax _ hps).1
    · intro p hp he
      rw [hpp] at hp
      have hps : (p.1, p.2.revenue) ∈
          (product_performance rows).map (fun q => (q.1, q.2.revenue)) :=
        List.mem_map.mpr ⟨p, hp, rfl⟩
      rw [hbpeq]
      exact (hmax _ hps).2 (by rw [he, hx2])
  · rcases bm with ⟨kb, vb⟩
    obtain ⟨hmem, hmax⟩ := idxmax_spec _ (month_series_pairwise rows) kb vb hbm
    obtain ⟨x, hx, hxeq⟩ := List.mem_map.mp hmem
    have hx1 : x.1 = kb := congrArg Prod.fst hxeq
    have hx2 : x.2.revenue = vb := congrArg Prod.snd hxeq
    refine ⟨x.2, ?_, ?_, ?_⟩
    · rw [hmt, hbmeq, ← hx1]
      simpa using hx
    · intro p hp
      rw [hmt] at hp
      have hps : (p.1, p.2.revenue) ∈
          (monthly_trends rows).map (fun q => (q.1, q.2.revenue)) :=
        List.mem_map.mpr ⟨p, hp, rfl⟩
      rw [hx2]
      exact (hmax _ hps).1
    · intro p hp he
      rw [hmt] at hp
      have hps : (p.1, p.2.revenue) ∈
          (monthly_trends rows).map (fun q => (q.1, q.2.revenue)) :=
        List.mem_map.mpr ⟨p, hp, rfl⟩
      rw [hbmeq]
      exact (hmax _ hps).2 (by rw [he, hx2])

/-- Counterexample for C5 as frozen: on two products tied at revenue 100
and first seen in the order Zebra, Apple, the code returns Apple (the
first row of the alphabetically sorted group table), not the
first-encountered key Zebra. -/
theorem c5_counterexample :
    analysisCalc (load_data tieCsv).rows = Except.ok tieAnalysis ∧
    firstSeen ((load_data tieCsv).rows.map (fun r => r.product)) = ["Zebra", "Apple"] ∧
    tieAnalysis.product_performance.map (fun p => p.2.revenue) = [100, 100] ∧
    tieAnalysis.best_product = "Apple" ∧
    tieAnalysis.best_product ≠ "Zebra" := by
  decide

/-- Witness for the amended C5 at the example dataset. -/
theorem c5_best_argmax_witness :
    analysisCalc (load_data exCsv).rows = Except.ok exAnalysis ∧
    ((∃ pr, (exAnalysis.best_product, pr) ∈ exAnalysis.product_performance ∧
        (∀ p ∈ exAnalysis.product_performance, p.2.revenue ≤ pr.revenue) ∧
        (∀ p ∈ exAnalysis.product_performance, p.2.revenue = pr.revenue →
           strLe exAnalysis.best_product p.1 = true)) ∧
     (∃ mr, (exAnalysis.best_month, mr) ∈ exAnalysis.monthly_trends ∧
        (∀ p ∈ exAnalysis.monthly_trends, p.2.revenue ≤ mr.revenue) ∧
        (∀ p ∈ exAnalysis.monthly_trends, p.2.revenue = mr.revenue →
           strLe exAnalysis.best_month p.1 = true))) :=
  ⟨by decide, c5_best_argmax (load_data exCsv).rows exAnalysis (by decide)⟩

/-- C6 (amended): the keys of the per-product and per-month tables are the
distinct keys of the dataset, without duplicates, in ascending sorted key
order (Python string order) — the order `groupby` with its default
`sort=True` emits, not first-seen order. -/
theorem c6_group_keys_order (rows : List SalesRecord) :
    (List.Pairwise (fun a b => strLe a b = true) ((product_performance rows).map Prod.fst) ∧
     ((product_performance rows).map Prod.fst).Nodup ∧
     (∀ k, k ∈ (product_performance rows).map Prod.fst ↔ ∃ r ∈ rows, r.product = k)) ∧
    (List.Pairwise (fun a b => strLe a b = true) ((monthly_trends rows).map Prod.fst) ∧
     ((monthly_trends rows).map Prod.fst).Nodup ∧
     (∀ k, k ∈ (monthly_trends rows).map Prod.fst ↔ ∃ r ∈ rows, recMonth r = k)) := by
  have hfst : ∀ {β : Type} (l : List String) (g : String → β),
      (l.map (fun k => (k, g k))).map Prod.fst = l := by
    intro β l g
    induction l with
    | nil => rfl
    | cons a l ih => simp [List.map_cons, ih]
  have hpk : (product_performance rows).map Prod.fst =
      uniqueSortedKeys (rows.map (fun r => r.product)) := by
    rw [product_performance]
    exact hfst _ _
  have hmk : (monthly_trends rows).map Prod.fst =
      uniqueSortedKeys (rows.map recMonth) := by
    rw [monthly_trends]
    exact hfst _ _
  refine ⟨⟨?_, ?_, ?_⟩, ⟨?_, ?_, ?_⟩⟩
  · rw [hpk]
    exact uniqueSortedKeys_sorted _
  · rw [hpk]
    exact nodup_uniqueSortedKeys _
  · intro k
    rw [hpk, mem_uniqueSortedKeys]
    exact List.mem_map
  · rw [hmk]
    exact uniqueSortedKeys_sorted _
  · rw [hmk]
    exact nodup_uniqueSortedKeys _
  · intro k
    rw [hmk, mem_uniqueSortedKeys]
    exact List.mem_map

/-- Counterexample for C6 as frozen: with products first seen in the order
Zebra, Apple, the per-product table lists its keys as Apple, Zebra — sorted
order, not first-seen order. -/
theorem c6_counterexample :
    (product_performance (load_data tieCsv).rows).map Prod.fst = ["Apple", "Zebra"] ∧
    firstSeen ((load_data tieCsv).rows.map (fun r => r.product)) = ["Zebra", "Apple"] ∧
    (product_performance (load_data tieCsv).rows).map Prod.fst ≠
      firstSeen ((load_data tieCsv).rows.map (fun r => r.product)) := by
  decide

/-- C7 (amended): whenever the aggregation succeeds with a nonzero total
revenue, the profit margin equals 100 × totalProfit / totalRevenue rounded
to two decimals; when the total revenue is zero the computation does not
error — numpy division yields a silent non-finite float, modelled `none`. -/
theorem c7_profit_margin (rows : List SalesRecord) (a : AnalysisData)
    (h : analysisCalc rows = Except.ok a) :
    (a.total_revenue ≠ 0 →
      a.profit_margin = some (round2 (a.total_profit / a.total_revenue * 100))) ∧
    (a.total_revenue = 0 → a.profit_margin = none) := by
  obtain ⟨h1, _, h3, _, _, _, hm, _⟩ := analysisCalc_ok_inv rows a h
  constructor
  · intro hne
    rw [hm, if_neg (by rw [← h1]; exact hne), h1, h3]
    rw [qmul_eq, qdiv_eq]
  · intro he
    rw [hm, if_pos (by rw [← h1]; exact he)]

/-- Counterexample for C7 as frozen: on a nonempty dataset whose revenues
sum to zero, the aggregation succeeds — no error is raised — and the margin
is the silent non-finite placeholder. -/
theorem c7_counterexample :
    analysisCalc (load_data zeroRevCsv).rows = Except.ok zeroAnalysis ∧
    zeroAnalysis.total_revenue = 0 ∧
    zeroAnalysis.profit_margin = none := by
  decide

/-- Witness for the amended C7 at the example dataset. -/
theorem c7_profit_margin_witness :
    analysisCalc (load_data exCsv).rows = Except.ok exAnalysis ∧
    ((exAnalysis.total_revenue ≠ 0 →
       exAnalysis.profit_margin =
         some (round2 (exAnalysis.total_profit / exAnalysis.total_revenue * 100))) ∧
     (exAnalysis.total_revenue = 0 → exAnalysis.profit_margin = none)) :=
  ⟨by decide, c7_profit_margin (load_data exCsv).rows exAnalysis (by decide)⟩

/-- C8 (amended): the record rows loaded into the dataset are never modified
by any operation — the analyst stage and the full pipeline preserve them —
but the dataset object itself is not immutable: the analyst stage assigns
the derived Month column in place; that assignment is idempotent, so the
frame is a fixed point from the first analysis on.  The customer-support
agent takes the frame read-only by construction. -/
theorem c8_rows_immutable (backend : Backend) (today : String) (df : DataFrame)
    (log : List Stage) :
    ((data_analyst_agent backend df log).1).rows = df.rows ∧
    ((run_full_analysis backend today df log).1).rows = df.rows ∧
    (data_analyst_agent backend ((data_analyst_agent backend df log).1) log).1 =
      (data_analyst_agent backend df log).1 := by
  have hgen : ∀ (d : DataFrame) (lg : List Stage),
      (data_analyst_agent backend d lg).1 =
        { d with monthCol := some (d.rows.map recMonth) } := by
    intro d lg
    rcases hc : analysisCalc d.rows with e | base
    · rw [data_analyst_agent_err_eq backend d lg e hc]
    · rw [data_analyst_agent_ok_eq backend d lg base hc]
  have hrun1 : (run_full_analysis backend today df log).1 =
      (data_analyst_agent backend df log).1 := by
    rcases hc : analysisCalc df.rows with e | base
    · simp only [run_full_analysis, data_analyst_agent_err_eq backend df log e hc]
    · simp only [run_full_analysis, data_analyst_agent_ok_eq backend df log base hc]
  refine ⟨by rw [hgen], by rw [hrun1, hgen], ?_⟩
  rw [hgen df log, hgen { df with monthCol := some (df.rows.map recMonth) } log]

/-- Counterexample for C8 as frozen: the first analyst run changes the
loaded frame — it adds the Month column that `load_data` had not created. -/
theorem c8_counterexample :
    (data_analyst_agent backendDown exDf []).1 ≠ exDf ∧
    exDf.monthCol = none ∧
    (data_analyst_agent backendDown exDf []).1.monthCol = some ["January", "February"] := by
  decide

/-- C9: the aggregation is deterministic — rerunning the analyst stage on
the dataset state left by a successful run (whose rows are unchanged)
produces a summary whose totals, margin, averages, grouped tables and best
month/product are identical to the first run's, and leaves the frame state
fixed. -/
theorem c9_summarize_deterministic (backend : Backend) (df : DataFrame) (log : List Stage)
    (df1 : DataFrame) (log1 : List Stage) (a1 : AnalysisData)
    (h : data_analyst_agent backend df log = (df1, log1, Except.ok a1)) :
    ∃ a2, data_analyst_agent backend df1 log1 =
        (df1, log1 ++ [Stage.analyst], Except.ok a2) ∧
      a2.total_revenue = a1.total_revenue ∧ a2.total_expenses = a1.total_expenses ∧
      a2.total_profit = a1.total_profit ∧ a2.profit_margin = a1.profit_margin ∧
      a2.avg_customers = a1.avg_customers ∧ a2.best_month = a1.best_month ∧
      a2.best_product = a1.best_product ∧
      a2.product_performance = a1.product_performance ∧
      a2.monthly_trends = a1.monthly_trends := by
  rcases hc : analysisCalc df.rows with e | base
  · rw [data_analyst_agent_err_eq backend df log e hc] at h
    simp at h
  · rw [data_analyst_agent_ok_eq backend df log base hc] at h
    simp only [Prod.mk.injEq, Except.ok.injEq] at h
    obtain ⟨hdf1, hlog1, ha1⟩ := h
    have hrows : df1.rows = df.rows := by rw [← hdf1]
    have hc1 : analysisCalc df1.rows = Except.ok base := by rw [hrows]; exact hc
    rw [data_analyst_agent_ok_eq backend df1 log1 base hc1]
    refine ⟨{ base with ai_insights := some (insightsOf (backend (analystPrompt base))) },
      ?_, ?_, ?_, ?_, ?_, ?_, ?_, ?_, ?_, ?_⟩
    · rw [← hdf1]
    · rw [← ha1]
    · rw [← ha1]
    · rw [← ha1]
    · rw [← ha1]
    · rw [← ha1]
    · rw [← ha1]
    · rw [← ha1]
    · rw [← ha1]
    · rw [← ha1]

/-- Witness for C9: rerunning the analyst on the post-analysis frame of the
example dataset. -/
theorem c9_summarize_deterministic_witness :
    ∃ a2, data_analyst_agent backendDown exDf2 [Stage.analyst] =
        (exDf2, [Stage.analyst] ++ [Stage.analyst], Except.ok a2) ∧
      a2.total_revenue = exAnalysisErr.total_revenue ∧
      a2.total_expenses = exAnalysisErr.total_expenses ∧
      a2.total_profit = exAnalysisErr.total_profit ∧
      a2.profit_margin = exAnalysisErr.profit_margin ∧
      a2.avg_customers = exAnalysisErr.avg_customers ∧
      a2.best_month = exAnalysisErr.best_month ∧
      a2.best_product = exAnalysisErr.best_product ∧
      a2.product_performance = exAnalysisErr.product_performance ∧
      a2.monthly_trends = exAnalysisErr.monthly_trends :=
  c9_summarize_deterministic backendDown exDf [] exDf2 [Stage.analyst] exAnalysisErr
    (by decide)
